import Mathlib

/-!
Verification development for the debounce/serialize conversation-automation
pipeline (FastAPI service in `main.py` with helpers in `functions.py`).

The Python functions are shallowly embedded: external I/O calls are replaced
by oracle parameters supplying their results, dictionaries become structures,
and Python strings become `List Char` (Python indexes strings by code point).
Each embedded definition is named after the source function it models.
-/

/-- A message record as returned by the CRM messages endpoint
(`GoHighLevelAPI.retrieve_messages`): the fields `compile_messages` reads. -/
structure Msg where
  id : String
  direction : String
  body : String
deriving DecidableEq, Repr

/-- A chat message in the shape `compile_messages` builds for the reasoning
engine: a role/content pair. -/
structure ChatMsg where
  role : String
  content : String
deriving DecidableEq, Repr

/-- The `for msg in all_messages` loop of `compile_messages`
(functions.py lines 109-114): walk the fetched list (most recent first),
stop at the first message whose id is the watermark, prepend each inbound
message seen on the way to the accumulator (Python `new_messages.insert(0, ...)`).
Returns the `found_recent` flag and the accumulated list. -/
def compileLoop (w : String) : List Msg → List ChatMsg → Bool × List ChatMsg
  | [], acc => (false, acc)
  | m :: rest, acc =>
    if m.id = w then (true, acc)
    else if m.direction = "inbound" then
      compileLoop w rest ({ role := "user", content := m.body } :: acc)
    else
      compileLoop w rest acc

/-- Embeds `compile_messages` (functions.py lines 101-123), given the list the CRM
fetch returned. Python: if the fetched list is falsy the loop is skipped and
`None` is returned; otherwise the loop runs and the collected messages are
returned only when the watermark was found and at least one inbound message
was collected, else `None`. -/
def compile_messages (all_messages : List Msg) (recent_automated_message_id : String) :
    Option (List ChatMsg) :=
  if all_messages.isEmpty then none
  else
    let r := compileLoop recent_automated_message_id all_messages []
    if r.1 ∧ r.2 ≠ [] then some r.2 else none

/-- The messages of the fetched list strictly before the watermark message. -/
def beforeWatermark (all_messages : List Msg) (w : String) : List Msg :=
  all_messages.takeWhile (fun m => m.id ≠ w)

/-- The inbound messages before the watermark, converted to chat shape,
still in most-recent-first order. -/
def inboundBefore (all_messages : List Msg) (w : String) : List ChatMsg :=
  ((beforeWatermark all_messages w).filter (fun m => m.direction = "inbound")).map
    (fun m => { role := "user", content := m.body })

/-- Whether the watermark id occurs in the fetched list. -/
def watermarkFound (all_messages : List Msg) (w : String) : Bool :=
  all_messages.any (fun m => m.id = w)

theorem compileLoop_spec (w : String) (ms : List Msg) (acc : List ChatMsg) :
    compileLoop w ms acc = (watermarkFound ms w, (inboundBefore ms w).reverse ++ acc) := by
  induction ms generalizing acc with
  | nil => simp [compileLoop, watermarkFound, inboundBefore, beforeWatermark]
  | cons m rest ih =>
    by_cases hid : m.id = w
    · simp [compileLoop, hid, watermarkFound, inboundBefore, beforeWatermark]
    · by_cases hdir : m.direction = "inbound"
      · simp [compileLoop, hid, hdir, watermarkFound, inboundBefore, beforeWatermark, ih]
      · simp [compileLoop, hid, hdir, watermarkFound, inboundBefore, beforeWatermark, ih]

theorem compile_messages_eq (ms : List Msg) (w : String) :
    compile_messages ms w =
      if watermarkFound ms w ∧ inboundBefore ms w ≠ [] then
        some (inboundBefore ms w).reverse
      else none := by
  unfold compile_messages
  by_cases hnil : ms.isEmpty
  · have : ms = [] := List.isEmpty_iff.mp hnil
    subst this
    simp [watermarkFound]
  · simp only [hnil, if_false, compileLoop_spec, List.append_nil]
    by_cases hf : watermarkFound ms w
    · by_cases hi : inboundBefore ms w = []
      · simp [hf, hi]
      · have : (inboundBefore ms w).reverse ≠ [] := by simpa using hi
        simp [hf, hi, this]
    · simp [hf]

/-- C1. History compilation: for every fetched message list (most-recent
first) and watermark id, `compile_messages` returns exactly the inbound
messages strictly before the first occurrence of the watermark, reversed
into chronological (oldest-first) order, and returns `none` precisely when
the watermark is never found or no inbound message precedes it. -/
theorem compile_messages_spec (ms : List Msg) (w : String) :
    compile_messages ms w =
      if watermarkFound ms w ∧ inboundBefore ms w ≠ [] then
        some (inboundBefore ms w).reverse
      else none :=
  compile_messages_eq ms w

/-- The opening citation marker `process_message_run` looks for. -/
def lbMark : Char := '【'

/-- The closing citation marker `process_message_run` looks for. -/
def rbMark : Char := '】'

/-- The citation-marker stripping step of `process_message_run`
(functions.py lines 171-172): when both markers occur, the slice up to the
first opening marker is concatenated with the slice after the first closing
marker (Python `find` returns the first index); otherwise the string is
left unchanged. Strings are `List Char` because Python indexes by code point. -/
def strip_citation (s : List Char) : List Char :=
  if lbMark ∈ s ∧ rbMark ∈ s then
    s.take (s.indexOf lbMark) ++ s.drop (s.indexOf rbMark + 1)
  else s

theorem strip_citation_no_pair {s : List Char} (h : ¬(lbMark ∈ s ∧ rbMark ∈ s)) :
    strip_citation s = s := by
  simp [strip_citation, h]

theorem charIndexOf_cons_self (x : Char) (l : List Char) : (x :: l).indexOf x = 0 := by
  simp [List.indexOf_cons]

theorem charIndexOf_cons_ne {x a : Char} (l : List Char) (h : a ≠ x) :
    (a :: l).indexOf x = l.indexOf x + 1 := by
  have hb : (a == x) = false := beq_eq_false_iff_ne.mpr h
  simp [List.indexOf_cons, hb]

theorem charIndexOf_append {x : Char} {l₁ : List Char} (l₂ : List Char) (h : x ∉ l₁) :
    (l₁ ++ l₂).indexOf x = l₁.length + l₂.indexOf x := by
  induction l₁ with
  | nil => simp
  | cons a t ih =>
    have ha : a ≠ x := fun e => h (by simp [e])
    have ht : x ∉ t := fun hm => h (List.mem_cons_of_mem _ hm)
    rw [List.cons_append, charIndexOf_cons_ne _ ha, ih ht]
    simp only [List.length_cons]
    omega

theorem strip_citation_one_pair (a b c : List Char)
    (ha1 : lbMark ∉ a) (ha2 : rbMark ∉ a) (hb1 : lbMark ∉ b) (hb2 : rbMark ∉ b) :
    strip_citation (a ++ (lbMark :: (b ++ rbMark :: c))) = a ++ c := by
  have hne : lbMark ≠ rbMark := by decide
  have hmem1 : lbMark ∈ a ++ (lbMark :: (b ++ rbMark :: c)) := by simp
  have hmem2 : rbMark ∈ a ++ (lbMark :: (b ++ rbMark :: c)) := by simp
  have hidx1 : (a ++ (lbMark :: (b ++ rbMark :: c))).indexOf lbMark = a.length := by
    rw [charIndexOf_append _ ha1, charIndexOf_cons_self]
    omega
  have hidx2 : (a ++ (lbMark :: (b ++ rbMark :: c))).indexOf rbMark =
      a.length + (b.length + 1) := by
    rw [charIndexOf_append _ ha2, charIndexOf_cons_ne _ hne,
      charIndexOf_append _ hb2, charIndexOf_cons_self]
  have htake : (a ++ (lbMark :: (b ++ rbMark :: c))).take a.length = a :=
    List.take_left a _
  have hsplit : a ++ (lbMark :: (b ++ rbMark :: c)) = (a ++ lbMark :: b ++ [rbMark]) ++ c := by
    simp
  have hdrop : (a ++ (lbMark :: (b ++ rbMark :: c))).drop (a.length + (b.length + 1) + 1) = c := by
    rw [hsplit]
    refine List.drop_left' ?_
    simp only [List.length_append, List.length_cons, List.length_nil]
  rw [strip_citation, if_pos ⟨hmem1, hmem2⟩, hidx1, hidx2, htake, hdrop]

/-- C7. Citation-marker stripping: a string that does not contain both
markers is returned unchanged, and a string with exactly one matched pair
(one opening marker followed by one closing marker) has exactly the enclosed
span, together with the two markers, removed. -/
theorem strip_citation_spec :
    (∀ s : List Char, ¬(lbMark ∈ s ∧ rbMark ∈ s) → strip_citation s = s) ∧
    (∀ a b c : List Char, lbMark ∉ a → rbMark ∉ a → lbMark ∉ b → rbMark ∉ b →
      lbMark ∉ c → rbMark ∉ c →
      strip_citation (a ++ (lbMark :: (b ++ rbMark :: c))) = a ++ c) :=
  ⟨fun _ h => strip_citation_no_pair h,
   fun a b c ha1 ha2 hb1 hb2 _ _ => strip_citation_one_pair a b c ha1 ha2 hb1 hb2⟩

/-- Witness for C7 at concrete inputs: a marker-free string is unchanged and
the single pair in `h【1】w` is removed together with the enclosed span. -/
theorem strip_citation_spec_witness :
    strip_citation ['x'] = ['x'] ∧
    strip_citation (['h'] ++ (lbMark :: (['1'] ++ rbMark :: ['w']))) = ['h'] ++ ['w'] :=
  ⟨strip_citation_spec.1 ['x'] (by decide),
   strip_citation_spec.2 ['h'] ['1'] ['w'] (by decide) (by decide) (by decide) (by decide)
     (by decide) (by decide)⟩

/-- C8 counterexample: stripping is not idempotent as claimed. On the string
`】a【` (markers present in reversed order) one strip produces `】aa【`, and a
second strip produces `】aaaa【`, so strip ∘ strip differs from strip. -/
theorem strip_citation_not_idempotent :
    strip_citation (strip_citation [rbMark, 'a', lbMark]) ≠
      strip_citation [rbMark, 'a', lbMark] := by decide

/-- C8 (amended). Citation-marker stripping is idempotent on strings that do
not contain both markers, and on strings containing exactly one matched pair
(one opening marker preceding one closing marker). It is not idempotent in
general: reversed markers or multiple pairs can leave (or create) a further
strippable pair. -/
theorem strip_citation_idempotent_amended (s : List Char)
    (h : ¬(lbMark ∈ s ∧ rbMark ∈ s) ∨
      ∃ a b c, s = a ++ (lbMark :: (b ++ rbMark :: c)) ∧ lbMark ∉ a ∧ rbMark ∉ a ∧
        lbMark ∉ b ∧ rbMark ∉ b ∧ lbMark ∉ c ∧ rbMark ∉ c) :
    strip_citation (strip_citation s) = strip_citation s := by
  rcases h with h | ⟨a, b, c, rfl, ha1, ha2, hb1, hb2, hc1, hc2⟩
  · rw [strip_citation_no_pair h, strip_citation_no_pair h]
  · rw [strip_citation_one_pair a b c ha1 ha2 hb1 hb2]
    refine strip_citation_no_pair ?_
    rintro ⟨h1, -⟩
    rw [List.mem_append] at h1
    exact h1.elim ha1 hc1

/-- Witness for C8 at a concrete input: double strip equals single strip on
`【x】`. -/
theorem strip_citation_idempotent_amended_witness :
    strip_citation (strip_citation ([] ++ (lbMark :: (['x'] ++ rbMark :: [])))) =
      strip_citation ([] ++ (lbMark :: (['x'] ++ rbMark :: []))) :=
  strip_citation_idempotent_amended _
    (Or.inr ⟨[], ['x'], [], rfl, by decide, by decide, by decide, by decide, by decide,
      by decide⟩)

/-- Outcome of one attempted compensation action call inside `KILL_BOT`
(functions.py lines 23-30): the awaited call can raise (caught, loop
continues), return a null/falsy failure (loop continues), or return a
non-null result (success, loop breaks). -/
inductive AttemptOutcome
  | raised
  | nullResult
  | ok
deriving DecidableEq, Repr

/-- One `(action, args, kwargs, retries)` entry of the compensation plan
passed to `KILL_BOT`. The action's behaviour is an oracle mapping the
attempt number (0-based) to that attempt's outcome; `name` models Python's
`action.__name__`. -/
structure PlanEntry where
  name : String
  attempts : Nat → AttemptOutcome
  retries : Nat

/-- The `for _ in range(retries)` retry loop of `KILL_BOT`: starting at
attempt index `i` with `fuel` attempts left, returns whether a non-null
result was reached and how many attempts were actually made. -/
def retryLoop (f : Nat → AttemptOutcome) (i : Nat) : Nat → Bool × Nat
  | 0 => (false, 0)
  | fuel + 1 =>
    match f i with
    | .ok => (true, 1)
    | _ =>
      let r := retryLoop f (i + 1) fuel
      (r.1, r.2 + 1)

/-- Running one plan entry: up to `retries` attempts starting from attempt 0. -/
def runEntry (e : PlanEntry) : Bool × Nat :=
  retryLoop e.attempts 0 e.retries

/-- The single structured outcome log `KILL_BOT` emits after the whole plan
has run (functions.py lines 37-45). -/
structure KillBotReport where
  failed_actions : List String
  log_level : String
  log_result : String
deriving DecidableEq, Repr

/-- Embeds `KILL_BOT` (functions.py lines 17-45): run every plan entry in order,
record the names of entries that exhausted their retries without a non-null
result, then emit exactly one outcome log. The Lean function is total: the
Python body catches every exception an action raises, so `KILL_BOT` never
raises to its caller. -/
def KILL_BOT (plan : List PlanEntry) : KillBotReport :=
  let failed := (plan.filter (fun e => !(runEntry e).1)).map (fun e => e.name)
  { failed_actions := failed
    log_level := if failed.isEmpty then "info" else "error"
    log_result := if failed.isEmpty then "all actions successful" else "some actions failed" }

/-- Spec-side success criterion: some attempt within the retry budget
returns a non-null result. -/
def entrySucceeds (e : PlanEntry) : Bool :=
  (List.range e.retries).any (fun i => e.attempts i == .ok)

theorem retryLoop_fst_range (f : Nat → AttemptOutcome) :
    ∀ fuel i, (retryLoop f i fuel).1 = (List.range' i fuel).any (fun j => f j == .ok) := by
  intro fuel
  induction fuel with
  | zero => intro i; simp [retryLoop]
  | succ n ih =>
    intro i
    rw [List.range'_succ]
    cases hfi : f i with
    | ok => simp [retryLoop, hfi]
    | raised => simp [retryLoop, hfi, ih (i + 1)]
    | nullResult => simp [retryLoop, hfi, ih (i + 1)]

theorem retryLoop_le (f : Nat → AttemptOutcome) :
    ∀ fuel i, (retryLoop f i fuel).2 ≤ fuel := by
  intro fuel
  induction fuel with
  | zero => intro i; simp [retryLoop]
  | succ n ih =>
    intro i
    cases hfi : f i with
    | ok => simp [retryLoop, hfi]
    | raised => simpa [retryLoop, hfi] using ih (i + 1)
    | nullResult => simpa [retryLoop, hfi] using ih (i + 1)

theorem retryLoop_stops (f : Nat → AttemptOutcome) :
    ∀ fuel i k, k < fuel → f (i + k) = .ok → (∀ j, j < k → f (i + j) ≠ .ok) →
      retryLoop f i fuel = (true, k + 1) := by
  intro fuel
  induction fuel with
  | zero => intro i k hk; omega
  | succ n ih =>
    intro i k hk hok hbefore
    cases k with
    | zero =>
      have : f i = .ok := by simpa using hok
      simp [retryLoop, this]
    | succ k' =>
      have h0 : f i ≠ .ok := by
        have := hbefore 0 (Nat.succ_pos k')
        simpa using this
      have hstep : retryLoop f (i + 1) n = (true, k' + 1) := by
        refine ih (i + 1) k' (by omega) ?_ ?_
        · have : i + 1 + k' = i + (k' + 1) := by omega
          rw [this]; exact hok
        · intro j hj
          have : i + 1 + j = i + (j + 1) := by omega
          rw [this]; exact hbefore (j + 1) (by omega)
      cases hfi : f i with
      | ok => exact absurd hfi h0
      | raised => simp [retryLoop, hfi, hstep]
      | nullResult => simp [retryLoop, hfi, hstep]

theorem retryLoop_exhausts (f : Nat → AttemptOutcome) :
    ∀ fuel i, (∀ j, j < fuel → f (i + j) ≠ .ok) → retryLoop f i fuel = (false, fuel) := by
  intro fuel
  induction fuel with
  | zero => intro i _; simp [retryLoop]
  | succ n ih =>
    intro i hall
    have h0 : f i ≠ .ok := by simpa using hall 0 (Nat.succ_pos n)
    have hstep : retryLoop f (i + 1) n = (false, n) := by
      refine ih (i + 1) ?_
      intro j hj
      have : i + 1 + j = i + (j + 1) := by omega
      rw [this]; exact hall (j + 1) (by omega)
    cases hfi : f i with
    | ok => exact absurd hfi h0
    | raised => simp [retryLoop, hfi, hstep]
    | nullResult => simp [retryLoop, hfi, hstep]

theorem runEntry_fst (e : PlanEntry) : (runEntry e).1 = entrySucceeds e := by
  have h := retryLoop_fst_range e.attempts e.retries 0
  rw [runEntry, h, entrySucceeds, List.range_eq_range']

/-- C2. Compensator contract: for every compensation plan, `KILL_BOT`
records as failed exactly the names (in plan order) of the entries with no
successful attempt within their retry budget; each entry is attempted at
most `retries` times; an entry whose first non-null success is at attempt
`k` stops after exactly `k + 1` attempts; an entry with no successful
attempt makes all `retries` attempts and is recorded failed; and the single
outcome log is info-level "all actions successful" when nothing failed,
else error-level "some actions failed" with the failed names. `KILL_BOT`
is a total function of the whole plan, so every entry is processed and no
exception escapes. -/
theorem KILL_BOT_spec (plan : List PlanEntry) :
    (KILL_BOT plan).failed_actions
        = ((plan.filter (fun e => !entrySucceeds e)).map (fun e => e.name))
    ∧ (∀ e : PlanEntry, (runEntry e).2 ≤ e.retries)
    ∧ (∀ e : PlanEntry, ∀ k, k < e.retries → e.attempts k = .ok →
        (∀ j, j < k → e.attempts j ≠ .ok) → runEntry e = (true, k + 1))
    ∧ (∀ e : PlanEntry, (∀ i, i < e.retries → e.attempts i ≠ .ok) →
        runEntry e = (false, e.retries))
    ∧ (KILL_BOT plan).log_level
        = (if (KILL_BOT plan).failed_actions.isEmpty then "info" else "error")
    ∧ (KILL_BOT plan).log_result
        = (if (KILL_BOT plan).failed_actions.isEmpty then "all actions successful"
           else "some actions failed") := by
  refine ⟨?_, ?_, ?_, ?_, rfl, rfl⟩
  · show (plan.filter (fun e => !(runEntry e).1)).map (fun e => e.name) = _
    congr 1
    refine List.filter_congr ?_
    intro e _
    rw [runEntry_fst]
  · intro e
    exact retryLoop_le e.attempts e.retries 0
  · intro e k hk hok hbefore
    refine retryLoop_stops e.attempts e.retries 0 k hk ?_ ?_
    · simpa using hok
    · intro j hj; simpa using hbefore j hj
  · intro e hall
    refine retryLoop_exhausts e.attempts e.retries 0 ?_
    intro j hj; simpa using hall j hj

/-- A plan entry that fails twice and then returns a non-null result on its
third attempt, within a budget of `retries = 3`. -/
def entryFlaky : PlanEntry :=
  { name := "remove_tags"
    attempts := fun i => if i < 2 then .raised else .ok
    retries := 3 }

/-- A plan entry that raises on every attempt, with `retries = 2`. -/
def entryDead : PlanEntry :=
  { name := "add_tags"
    attempts := fun _ => .raised
    retries := 2 }

/-- Witness for C2 at concrete inputs: the flaky entry succeeds on its third
attempt (recorded successful after exactly 3 attempts), the always-failing
entry exhausts both attempts and is the only name recorded failed, and the
outcome log is error-level. -/
theorem KILL_BOT_spec_witness :
    runEntry entryFlaky = (true, 3)
    ∧ runEntry entryDead = (false, 2)
    ∧ (KILL_BOT [entryFlaky, entryDead]).failed_actions
        = ((([entryFlaky, entryDead].filter (fun e => !entrySucceeds e)).map
            (fun e => e.name)))
    ∧ (KILL_BOT [entryFlaky, entryDead]).log_level
        = (if (KILL_BOT [entryFlaky, entryDead]).failed_actions.isEmpty then "info"
           else "error") :=
  ⟨(KILL_BOT_spec []).2.2.1 entryFlaky 2 (by decide) (by decide)
      (by intro j hj; interval_cases j <;> decide),
   (KILL_BOT_spec []).2.2.2.1 entryDead (by intro i _; simp [entryDead]),
   (KILL_BOT_spec [entryFlaky, entryDead]).1,
   (KILL_BOT_spec [entryFlaky, entryDead]).2.2.2.2.1⟩

/-- Observable external effects of the Conversation Advancer pipeline: the
trace records Compensator invocations (`KILL_BOT` calls with their reason),
structured logs, outbound sends, contact updates, and tool-output
acknowledgements submitted back to the reasoning engine. -/
inductive Event
  | killbot (reason : String) (ghl_contact_id : String)
  | logError (msg : String)
  | logInfo (msg : String)
  | sendMessage (ghl_contact_id : String) (text : List Char)
  | updateContact (ghl_contact_id : String) (field_value : String)
  | submitToolOutput (tool_call_id : String) (output : String)
deriving DecidableEq, Repr

/-- Whether an event is a Compensator (`KILL_BOT`) invocation. -/
def Event.isKillbot : Event → Bool
  | .killbot _ _ => true
  | _ => false

/-- One tool call of a requires-action run response: its id and the keys of
its parsed `function.arguments` JSON object, in order. -/
structure ToolCall where
  id : String
  argKeys : List String
deriving DecidableEq, Repr

/-- The fields of an OpenAI run response that `process_run_response` and
`process_function_run` read: terminal status, run id, and the tool calls of
`required_action.submit_tool_outputs`. -/
structure RunResponse where
  status : String
  id : String
  tool_calls : List ToolCall
deriving DecidableEq, Repr

/-- The send-message response field `process_message_run` reads. -/
structure SendResponse where
  messageId : String
deriving DecidableEq, Repr

/-- Oracle for the external calls of `process_message_run`: the text of each
AI message returned by `messages.list` (in list order), the outcome of
`ghl_api.send_message` (`none` models a falsy failure), and the outcome of
`ghl_api.update_contact` — which the source discards. -/
structure MsgRunOracle where
  ai_contents : List (List Char)
  send : Option SendResponse
  update : Option Bool

/-- Embeds `handoff_action` (functions.py lines 230-239): a Compensator-style
cleanup sequence (remove the automation tag, send a closing message) run
through `KILL_BOT` with reason "Handoff Action". -/
def handoff_action (ghl_contact_id : String) : List Event :=
  [Event.killbot "Handoff Action" ghl_contact_id]

/-- Embeds `end_action` (functions.py lines 243-252): cleanup via `KILL_BOT` with
reason "End Action". -/
def end_action (ghl_contact_id : String) : List Event :=
  [Event.killbot "End Action" ghl_contact_id]

/-- Embeds `tier1_action` (functions.py lines 256-265): cleanup via `KILL_BOT` with
reason "Tier 1 Action". -/
def tier1_action (ghl_contact_id : String) : List Event :=
  [Event.killbot "Tier 1 Action" ghl_contact_id]

/-- Embeds `process_message_run` (functions.py lines 160-196): take the last AI
message's text, strip citation markers, send it outbound; on a falsy send
response return `None`; otherwise call `update_contact` with the new
watermark (its result is not inspected), log success, and return `True`.
Returns the Python return value and the trace of external effects. -/
def process_message_run (o : MsgRunOracle) (ghl_contact_id : String) :
    Option Bool × List Event :=
  match o.ai_contents.getLast? with
  | none => (none, [Event.logError "AI Message -- Get message failed"])
  | some content =>
    let ai_content := strip_citation content
    match o.send with
    | none => (none, [Event.sendMessage ghl_contact_id ai_content])
    | some resp =>
      (some true,
        [Event.sendMessage ghl_contact_id ai_content,
         Event.updateContact ghl_contact_id resp.messageId,
         Event.logInfo "AI Message -- Processed and sent"])

/-- Embeds `process_function_run` (functions.py lines 200-226): read the first tool
call; dispatch on which key its argument object contains ("handoff", then
"reason", then "tier"); an unrecognized key set is logged and yields `None`
(an empty key set raises `IndexError` inside the log line, caught by the
handler, also yielding `None`); after a recognized dispatch, submit a
"success" tool output keyed by the tool call's id back to the reasoning
engine. `submitRaises` is the oracle for `submit_tool_outputs` raising: the
exception is caught and turns the result into `None`. An empty
`tool_calls` list raises `IndexError` at `tool_calls[0]`, caught by the
handler. -/
def process_function_run (r : RunResponse) (submitRaises : Bool) (ghl_contact_id : String) :
    Option Bool × List Event :=
  match r.tool_calls with
  | [] => (none, [Event.logError "Process Function Run -- exception"])
  | tc :: _ =>
    let dispatched : Option (List Event) :=
      if tc.argKeys.contains "handoff" then some (handoff_action ghl_contact_id)
      else if tc.argKeys.contains "reason" then some (end_action ghl_contact_id)
      else if tc.argKeys.contains "tier" then some (tier1_action ghl_contact_id)
      else none
    match dispatched with
    | none =>
      if tc.argKeys.isEmpty then
        (none, [Event.logError "Process Function Run -- exception"])
      else
        (none, [Event.logError "Process Function Run -- Unhandled function key"])
    | some tr =>
      if submitRaises then
        (none, tr ++ [Event.logError "Process Function Run -- exception"])
      else
        (some true, tr ++ [Event.submitToolOutput tc.id "success"])

/-- Embeds `process_run_response` (functions.py lines 127-156): branch on the run
status; a `None` result from either branch, or a status that is neither
"completed" nor "requires_action", raises, and the handler invokes
`KILL_BOT` with reason "Bot Failure" and logs the error. The handler
swallows the exception, so `process_run_response` itself never raises. -/
def process_run_response (r : RunResponse) (mo : MsgRunOracle) (submitRaises : Bool)
    (ghl_contact_id : String) : List Event :=
  if r.status = "completed" then
    let pr := process_message_run mo ghl_contact_id
    match pr.1 with
    | some _ => pr.2
    | none => pr.2 ++ [Event.killbot "Bot Failure" ghl_contact_id,
        Event.logError "Process Run Response"]
  else if r.status = "requires_action" then
    let pr := process_function_run r submitRaises ghl_contact_id
    match pr.1 with
    | some _ => pr.2
    | none => pr.2 ++ [Event.killbot "Bot Failure" ghl_contact_id,
        Event.logError "Process Run Response"]
  else
    [Event.logError "Run Thread -- Run failed",
     Event.killbot "Bot Failure" ghl_contact_id,
     Event.logError "Process Run Response"]

/-- The job fields `advance_convo` reads from `convo_data`. -/
structure ConvoData where
  ghl_contact_id : String
  ghl_convo_id : String
  thread_id : String
  assistant_id : String
  recent_automated_message_id : String
deriving DecidableEq, Repr

/-- Oracle for the external calls of `advance_convo`: the message list the
CRM fetch inside `compile_messages` returns, the outcome of
`runs.create_and_poll` (`Except.error` models the call raising, `.ok none`
a falsy response), and the inner oracles for run-response processing. -/
structure AdvanceOracle where
  fetched : List Msg
  run : Except String (Option RunResponse)
  msgRun : MsgRunOracle
  fnSubmitRaises : Bool

/-- The trace of the `KILL_BOT` call `advance_convo` makes when history
compilation fails or the run response is falsy (functions.py lines 66-73
and 83-90). -/
def botFailureTrace (ghl_contact_id : String) : List Event :=
  [Event.killbot "Bot Failure" ghl_contact_id]

/-- The body of `advance_convo`'s `try` block (functions.py lines 55-94):
compile history (falsy result → Compensator, return); invoke the reasoning
run (`Except.error` models the awaited call raising — the only statement in
the body that can raise, since `compile_messages`, `KILL_BOT` and
`process_run_response` all catch their own exceptions); falsy run response
→ Compensator, return; otherwise process the run response. -/
def advance_attempt (cd : ConvoData) (o : AdvanceOracle) :
    Except (String × List Event) (List Event) :=
  match compile_messages o.fetched cd.recent_automated_message_id with
  | none => .ok (botFailureTrace cd.ghl_contact_id)
  | some msgs =>
    if msgs.isEmpty then .ok (botFailureTrace cd.ghl_contact_id)
    else
      match o.run with
      | .error e => .error (e, [])
      | .ok none => .ok (botFailureTrace cd.ghl_contact_id)
      | .ok (some r) =>
        .ok (process_run_response r o.msgRun o.fnSubmitRaises cd.ghl_contact_id)

/-- Embeds `advance_convo` (functions.py lines 54-97): the whole body is wrapped in
`try/except Exception`, whose handler only logs the error. A result of
`Except.ok` models returning to the caller without an exception. -/
def advance_convo (cd : ConvoData) (o : AdvanceOracle) : Except String (List Event) :=
  match advance_attempt cd o with
  | .ok tr => .ok tr
  | .error (e, tr) => .ok (tr ++ [Event.logError ("Advance Convo -- " ++ e)])

/-- C4 counterexample inputs: a job whose history compiles fine. -/
def cdZ : ConvoData :=
  { ghl_contact_id := "c0"
    ghl_convo_id := "v0"
    thread_id := "t0"
    assistant_id := "a0"
    recent_automated_message_id := "w0" }

/-- An empty inner oracle for branches that are never reached. -/
def moEmpty : MsgRunOracle :=
  { ai_contents := [], send := none, update := none }

/-- C4 counterexample oracle: history compilation succeeds (one new inbound
message before the watermark), but the reasoning invocation
(`runs.create_and_poll`) raises. -/
def oZ : AdvanceOracle :=
  { fetched := [{ id := "m1", direction := "inbound", body := "hello" },
                { id := "w0", direction := "outbound", body := "prev" }]
    run := .error "boom"
    msgRun := moEmpty
    fnSubmitRaises := false }

/-- C4 counterexample: when the reasoning invocation raises, `advance_convo`
catches the exception and only logs it — the resulting trace contains no
Compensator (`KILL_BOT`) invocation, contradicting the claim that every
unexpected error in any step is routed to the Compensator. -/
theorem advance_convo_counterexample :
    advance_convo cdZ oZ = .ok [Event.logError "Advance Convo -- boom"]
    ∧ ([Event.logError "Advance Convo -- boom"].all (fun e => !e.isKillbot)) = true :=
  ⟨rfl, rfl⟩

/-- C4 (amended). Advancer error policy: for every job and oracle,
`advance_convo` returns normally (no exception from processing one
contact's job propagates to its caller), and every failure arising in
run-response processing is routed to the Compensator (`KILL_BOT` with
reason "Bot Failure" appears in the trace): a run response whose status is
neither "completed" nor "requires_action", a completed run whose message
processing returns `None`, and a requires-action run whose function
processing returns `None`. An exception raised by the reasoning invocation
itself, however, is caught and only logged, not routed to the Compensator
(see the counterexample). -/
theorem advance_convo_error_policy (cd : ConvoData) (o : AdvanceOracle) :
    (∃ tr, advance_convo cd o = .ok tr)
    ∧ (∀ r, o.run = .ok (some r) → r.status ≠ "completed" →
        r.status ≠ "requires_action" →
        ∀ tr, advance_convo cd o = .ok tr →
          Event.killbot "Bot Failure" cd.ghl_contact_id ∈ tr)
    ∧ (∀ r, o.run = .ok (some r) → r.status = "completed" →
        (process_message_run o.msgRun cd.ghl_contact_id).1 = none →
        ∀ tr, advance_convo cd o = .ok tr →
          Event.killbot "Bot Failure" cd.ghl_contact_id ∈ tr)
    ∧ (∀ r, o.run = .ok (some r) → r.status = "requires_action" →
        (process_function_run r o.fnSubmitRaises cd.ghl_contact_id).1 = none →
        ∀ tr, advance_convo cd o = .ok tr →
          Event.killbot "Bot Failure" cd.ghl_contact_id ∈ tr) := by
  refine ⟨?_, ?_, ?_, ?_⟩
  · cases h : advance_attempt cd o with
    | ok tr => exact ⟨tr, by simp [advance_convo, h]⟩
    | error p =>
      exact ⟨p.2 ++ [Event.logError ("Advance Convo -- " ++ p.1)],
        by simp [advance_convo, h]⟩
  · intro r hrun hc hra tr htr
    cases hcm : compile_messages o.fetched cd.recent_automated_message_id with
    | none =>
      simp [advance_convo, advance_attempt, hcm] at htr
      simp [← htr, botFailureTrace]
    | some msgs =>
      by_cases hmt : msgs.isEmpty
      · simp [advance_convo, advance_attempt, hcm, hmt] at htr
        simp [← htr, botFailureTrace]
      · simp [advance_convo, advance_attempt, hcm, hmt, hrun] at htr
        simp [← htr, process_run_response, hc, hra]
  · intro r hrun hst hpm tr htr
    cases hcm : compile_messages o.fetched cd.recent_automated_message_id with
    | none =>
      simp [advance_convo, advance_attempt, hcm] at htr
      simp [← htr, botFailureTrace]
    | some msgs =>
      by_cases hmt : msgs.isEmpty
      · simp [advance_convo, advance_attempt, hcm, hmt] at htr
        simp [← htr, botFailureTrace]
      · simp [advance_convo, advance_attempt, hcm, hmt, hrun] at htr
        simp [← htr, process_run_response, hst, hpm]
  · intro r hrun hst hpf tr htr
    have hnc : ¬(r.status = "completed") := by rw [hst]; decide
    cases hcm : compile_messages o.fetched cd.recent_automated_message_id with
    | none =>
      simp [advance_convo, advance_attempt, hcm] at htr
      simp [← htr, botFailureTrace]
    | some msgs =>
      by_cases hmt : msgs.isEmpty
      · simp [advance_convo, advance_attempt, hcm, hmt] at htr
        simp [← htr, botFailureTrace]
      · simp [advance_convo, advance_attempt, hcm, hmt, hrun] at htr
        simp [← htr, process_run_response, hnc, hst, hpf]

/-- C4 witness inputs: a run response with terminal status "failed". -/
def cdW : ConvoData :=
  { ghl_contact_id := "cw"
    ghl_convo_id := "vw"
    thread_id := "tw"
    assistant_id := "aw"
    recent_automated_message_id := "ww" }

/-- C4 witness run response. -/
def rFailW : RunResponse := { status := "failed", id := "r1", tool_calls := [] }

/-- C4 witness oracle. -/
def oW : AdvanceOracle :=
  { fetched := [{ id := "m1", direction := "inbound", body := "hi" },
                { id := "ww", direction := "outbound", body := "x" }]
    run := .ok (some rFailW)
    msgRun := moEmpty
    fnSubmitRaises := false }

/-- C4 witness run response with terminal status "completed"; with an empty
message-list oracle its message processing returns `None`. -/
def rDoneW : RunResponse := { status := "completed", id := "r3", tool_calls := [] }

/-- C4 witness oracle for the completed-failure routing. -/
def oW2 : AdvanceOracle :=
  { fetched := [{ id := "m1", direction := "inbound", body := "hi" },
                { id := "ww", direction := "outbound", body := "x" }]
    run := .ok (some rDoneW)
    msgRun := moEmpty
    fnSubmitRaises := false }

/-- Witness for C4 at concrete inputs: the advance returns normally, the
failed-status run is routed to the Compensator, and so is a completed run
whose message processing fails. -/
theorem advance_convo_error_policy_witness :
    (∃ tr, advance_convo cdW oW = .ok tr)
    ∧ Event.killbot "Bot Failure" "cw" ∈
        [Event.logError "Run Thread -- Run failed",
         Event.killbot "Bot Failure" "cw",
         Event.logError "Process Run Response"]
    ∧ Event.killbot "Bot Failure" "cw" ∈
        [Event.logError "AI Message -- Get message failed",
         Event.killbot "Bot Failure" "cw",
         Event.logError "Process Run Response"] :=
  ⟨(advance_convo_error_policy cdW oW).1,
   (advance_convo_error_policy cdW oW).2.1 rFailW rfl (by decide) (by decide) _ rfl,
   (advance_convo_error_policy cdW oW2).2.2.1 rDoneW rfl rfl rfl _ rfl⟩

/-- C6. Unrecognized action handling: when the first tool call's argument
keys match none of the fixed set ("handoff", "reason", "tier"),
`process_function_run` returns `None` without crashing, and — for a
requires-action run — `process_run_response` then invokes the Compensator
(`KILL_BOT` with reason "Bot Failure"); when a key of the fixed set is
present, the corresponding action is dispatched and a structured "success"
tool output keyed by the tool call's id is submitted back to the reasoning
engine. -/
theorem process_function_run_spec (r : RunResponse) (tc : ToolCall) (rest : List ToolCall)
    (mo : MsgRunOracle) (cid : String) (htc : r.tool_calls = tc :: rest) :
    (tc.argKeys.contains "handoff" = false → tc.argKeys.contains "reason" = false →
      tc.argKeys.contains "tier" = false →
      (process_function_run r false cid).1 = none
      ∧ (r.status = "requires_action" →
          Event.killbot "Bot Failure" cid ∈ process_run_response r mo false cid))
    ∧ (tc.argKeys.contains "handoff" = true →
        process_function_run r false cid =
          (some true, [Event.killbot "Handoff Action" cid,
            Event.submitToolOutput tc.id "success"]))
    ∧ (tc.argKeys.contains "handoff" = false → tc.argKeys.contains "reason" = true →
        process_function_run r false cid =
          (some true, [Event.killbot "End Action" cid,
            Event.submitToolOutput tc.id "success"]))
    ∧ (tc.argKeys.contains "handoff" = false → tc.argKeys.contains "reason" = false →
        tc.argKeys.contains "tier" = true →
        process_function_run r false cid =
          (some true, [Event.killbot "Tier 1 Action" cid,
            Event.submitToolOutput tc.id "success"])) := by
  refine ⟨?_, ?_, ?_, ?_⟩
  · intro h1 h2 h3
    have m1 : "handoff" ∉ tc.argKeys := by simpa using h1
    have m2 : "reason" ∉ tc.argKeys := by simpa using h2
    have m3 : "tier" ∉ tc.argKeys := by simpa using h3
    have hres : (process_function_run r false cid).1 = none := by
      by_cases hemp : tc.argKeys.isEmpty
      · simp [process_function_run, htc, m1, m2, m3, hemp]
      · simp [process_function_run, htc, m1, m2, m3, hemp]
    refine ⟨hres, ?_⟩
    intro hst
    have hnc : ¬(r.status = "completed") := by rw [hst]; decide
    cases hpr : (process_function_run r false cid).1 with
    | none => simp [process_run_response, hnc, hst, hpr]
    | some b => rw [hpr] at hres; exact absurd hres (by simp)
  · intro h1
    have m1 : "handoff" ∈ tc.argKeys := by simpa using h1
    simp [process_function_run, htc, m1, handoff_action]
  · intro h1 h2
    have m1 : "handoff" ∉ tc.argKeys := by simpa using h1
    have m2 : "reason" ∈ tc.argKeys := by simpa using h2
    simp [process_function_run, htc, m1, m2, end_action]
  · intro h1 h2 h3
    have m1 : "handoff" ∉ tc.argKeys := by simpa using h1
    have m2 : "reason" ∉ tc.argKeys := by simpa using h2
    have m3 : "tier" ∈ tc.argKeys := by simpa using h3
    simp [process_function_run, htc, m1, m2, m3, tier1_action]

/-- C6 witness run response: a requires-action run requesting the handoff
action. -/
def rHandoffW : RunResponse :=
  { status := "requires_action"
    id := "r2"
    tool_calls := [{ id := "call1", argKeys := ["handoff"] }] }

/-- Witness for C6 at concrete inputs: the handoff action is dispatched and
a "success" tool output keyed by the tool call's id is submitted. -/
theorem process_function_run_spec_witness :
    process_function_run rHandoffW false "c6" =
      (some true, [Event.killbot "Handoff Action" "c6",
        Event.submitToolOutput "call1" "success"]) :=
  (process_function_run_spec rHandoffW { id := "call1", argKeys := ["handoff"] } []
    moEmpty "c6" rfl).2.1 (by decide)

/-- C9. In the Completed branch, after a successful outbound send,
`process_message_run` returns `True` regardless of the `update_contact`
outcome: the update result is discarded (both oracles give identical
behaviour), nothing is routed to the Compensator, and exactly one
`update_contact` call with the new watermark is made — a failed watermark
update is neither retried nor compensated. -/
theorem process_message_run_update_discarded (contents : List (List Char))
    (resp : SendResponse) (u1 u2 : Option Bool) (cid : String)
    (h : contents ≠ []) :
    (process_message_run ⟨contents, some resp, u1⟩ cid).1 = some true
    ∧ process_message_run ⟨contents, some resp, u1⟩ cid
        = process_message_run ⟨contents, some resp, u2⟩ cid
    ∧ ((process_message_run ⟨contents, some resp, u1⟩ cid).2.all
        (fun e => !e.isKillbot)) = true
    ∧ (process_message_run ⟨contents, some resp, u1⟩ cid).2.count
        (Event.updateContact cid resp.messageId) = 1 := by
  obtain ⟨l, hl⟩ : ∃ l, contents.getLast? = some l := by
    cases hc : contents.getLast? with
    | none => exact absurd (List.getLast?_eq_none_iff.mp hc) h
    | some l => exact ⟨l, rfl⟩
  refine ⟨?_, ?_, ?_, ?_⟩
  · simp [process_message_run, hl]
  · simp [process_message_run, hl]
  · simp [process_message_run, hl, Event.isKillbot]
  · simp [process_message_run, hl, List.count_cons, List.count_nil]

/-- Witness for C9 at concrete inputs. -/
theorem process_message_run_update_discarded_witness :
    (process_message_run ⟨[['h', 'i']], some ⟨"m2"⟩, none⟩ "c9").1 = some true
    ∧ process_message_run ⟨[['h', 'i']], some ⟨"m2"⟩, none⟩ "c9"
        = process_message_run ⟨[['h', 'i']], some ⟨"m2"⟩, some false⟩ "c9"
    ∧ ((process_message_run ⟨[['h', 'i']], some ⟨"m2"⟩, none⟩ "c9").2.all
        (fun e => !e.isKillbot)) = true
    ∧ (process_message_run ⟨[['h', 'i']], some ⟨"m2"⟩, none⟩ "c9").2.count
        (Event.updateContact "c9" "m2") = 1 :=
  process_message_run_update_discarded [['h', 'i']] ⟨"m2"⟩ none (some false) "c9"
    (by decide)

/-- The identity fields the gateway validates and stores, as listed in
`main.py`'s `validated_fields` shape (lines 136-142). -/
def requiredFields : List String :=
  ["ghl_contact_id", "thread_id", "assistant_id", "recent_automated_message_id",
   "ghl_convo_id"]

/-- Look up a field value in a request's field map. -/
def lookupField (data : List (String × String)) (k : String) : Option String :=
  (data.find? (fun p => p.1 == k)).map (fun p => p.2)

/-- Whether a required field is absent or a placeholder (empty string or the
literal "null"). -/
def fieldMissing (data : List (String × String)) (k : String) : Bool :=
  match lookupField data k with
  | none => true
  | some v => v == "" || v == "null"

/-- The required fields a request fails to supply properly. -/
def missingFields (data : List (String × String)) : List String :=
  requiredFields.filter (fun k => fieldMissing data k)

/-- Modelled from the spec: `validate_request_data` is imported by `main.py`
from `functions` but is absent from the sources. Per the spec it validates
that all identity fields are present and non-placeholder (rejecting empty
string, the literal "null", and absent values); on success it yields the
validated identity fields, on failure a falsy result. -/
def validate_request_data (data : List (String × String)) :
    Option (List (String × String)) :=
  if missingFields data = [] then
    some (requiredFields.map (fun k => (k, (lookupField data k).getD "")))
  else none

/-- Modelled from the spec: `make_redis_json_str` is imported by `main.py`
from `functions` but is absent from the sources. Per the spec the
coalescing key is a deterministic, order-preserving encoding of the
validated identity fields. -/
def make_redis_json_str (fields : List (String × String)) : String :=
  String.intercalate "|" (fields.map (fun p => p.1 ++ "=" ++ p.2))

/-- The responses the `/triggerResponse` endpoint can produce.
`validationError` is the response shape the spec's gateway contract calls
for on validation failure (an error naming the missing fields); the source
never builds it. `internalError` is the generic 500 "Internal code error"
of the endpoint's catch-all handler. -/
inductive GatewayResp
  | ack (ghl_contact_id : String)
  | failedQueue (ghl_contact_id : String)
  | validationError (missing : List String)
  | internalError
deriving DecidableEq, Repr

/-- Whether a response is a validation error naming missing fields. -/
def GatewayResp.isValidationError : GatewayResp → Bool
  | .validationError _ => true
  | _ => false

/-- A `setex` write to the delay store: key, TTL seconds, value. -/
structure RedisWrite where
  key : String
  ttl : Nat
  value : String
deriving DecidableEq, Repr

/-- Embeds `trigger_response` (main.py lines 122-164), non-load-test path:
validate the request, then build the coalescing key from the validated
fields and write it to the delay store with a 10-second TTL; report
"Response queued" (with the contact id) when the write succeeds, "Failed to
queue" otherwise. The endpoint has no validation-failure branch: a falsy
validator result makes the subsequent key build / field access raise, which
the catch-all handler turns into the generic 500 "Internal code error"
response, without any delay-store write. `setexOk` is the oracle for the
`setex` call's result. Returns the HTTP response and the write made, if
any. -/
def trigger_response (data : List (String × String)) (setexOk : Bool) :
    GatewayResp × Option RedisWrite :=
  match validate_request_data data with
  | none => (GatewayResp.internalError, none)
  | some fields =>
    let wr : RedisWrite := { key := make_redis_json_str fields, ttl := 10, value := "0" }
    if setexOk then
      (GatewayResp.ack ((lookupField fields "ghl_contact_id").getD ""), some wr)
    else
      (GatewayResp.failedQueue ((lookupField fields "ghl_contact_id").getD ""), some wr)

/-- C5 counterexample request: `thread_id` is present but empty, so
validation fails on it. -/
def dataBad : List (String × String) :=
  [("ghl_contact_id", "c1"), ("thread_id", ""), ("assistant_id", "a1"),
   ("recent_automated_message_id", "m1"), ("ghl_convo_id", "v1")]

/-- C5 counterexample: on a request with a missing (empty) identity field,
the endpoint does not return an error naming the missing fields — it
returns the generic internal error (and writes nothing), because the active
`trigger_response` code has no validation-failure branch. -/
theorem trigger_response_counterexample :
    missingFields dataBad = ["thread_id"]
    ∧ trigger_response dataBad true = (GatewayResp.internalError, none)
    ∧ GatewayResp.isValidationError (trigger_response dataBad true).1 = false :=
  ⟨rfl, rfl, rfl⟩

/-- C5 (amended). Debounce Gateway validation: `validate_request_data`
(modelled from the spec) rejects a request precisely when some identity
field is absent, empty, or the literal "null"; on success the endpoint
writes the coalescing key to the delay store with a 10-second TTL and
returns an acknowledgement containing the contact id; but on validation
failure the endpoint returns the generic internal error, which does not
name the missing fields (see the counterexample). -/
theorem trigger_response_spec (data : List (String × String)) :
    (validate_request_data data = none ↔ missingFields data ≠ [])
    ∧ (missingFields data ≠ [] →
        trigger_response data true = (GatewayResp.internalError, none))
    ∧ (∀ fields, validate_request_data data = some fields →
        trigger_response data true =
          (GatewayResp.ack ((lookupField data "ghl_contact_id").getD ""),
           some { key := make_redis_json_str fields, ttl := 10, value := "0" })
        ∧ trigger_response data false =
          (GatewayResp.failedQueue ((lookupField data "ghl_contact_id").getD ""),
           some { key := make_redis_json_str fields, ttl := 10, value := "0" })) := by
  refine ⟨?_, ?_, ?_⟩
  · constructor
    · intro h hm
      rw [validate_request_data, if_pos hm] at h
      exact Option.noConfusion h
    · intro hm
      rw [validate_request_data, if_neg hm]
  · intro hm
    rw [trigger_response, validate_request_data, if_neg hm]
  · intro fields hv
    have hm : missingFields data = [] := by
      by_cases h : missingFields data = []
      · exact h
      · rw [validate_request_data, if_neg h] at hv; exact Option.noConfusion hv
    have hf : fields = requiredFields.map (fun k => (k, (lookupField data k).getD "")) := by
      rw [validate_request_data, if_pos hm] at hv
      exact ((Option.some.injEq _ _).mp hv.symm)
    have hlk : lookupField fields "ghl_contact_id"
        = some ((lookupField data "ghl_contact_id").getD "") := by
      rw [hf]
      simp [requiredFields, lookupField, List.find?]
    constructor
    · rw [trigger_response, hv]
      simp [hlk]
    · rw [trigger_response, hv]
      simp [hlk]

/-- C5 witness request: all identity fields present and non-placeholder. -/
def dataGood : List (String × String) :=
  [("ghl_contact_id", "c1"), ("thread_id", "t1"), ("assistant_id", "a1"),
   ("recent_automated_message_id", "m1"), ("ghl_convo_id", "v1")]

/-- Witness for C5 at concrete inputs: the valid request is acknowledged
with its contact id after the coalescing key is written. -/
theorem trigger_response_spec_witness :
    trigger_response dataGood true =
      (GatewayResp.ack ((lookupField dataGood "ghl_contact_id").getD ""),
       some { key := make_redis_json_str (requiredFields.map
                (fun k => (k, (lookupField dataGood k).getD ""))),
              ttl := 10, value := "0" })
    ∧ trigger_response dataGood false =
      (GatewayResp.failedQueue ((lookupField dataGood "ghl_contact_id").getD ""),
       some { key := make_redis_json_str (requiredFields.map
                (fun k => (k, (lookupField dataGood k).getD ""))),
              ttl := 10, value := "0" }) :=
  (trigger_response_spec dataGood).2.2
    (requiredFields.map (fun k => (k, (lookupField dataGood k).getD ""))) rfl

/-- The Python default of `retrieve_messages`' `limit` parameter
(functions.py line 321). -/
def defaultMessageLimit : Nat := 10

/-- Embeds `GoHighLevelAPI.retrieve_messages` (functions.py lines 321-350) as a
function of the full conversation (most-recent first): the endpoint is
queried with `params = {limit, type}` and returns at most the `limit` most
recent messages of the conversation. -/
def retrieve_messages_limited (full_conversation : List Msg) (limit : Nat) : List Msg :=
  full_conversation.take limit

/-- History compilation as `advance_convo` performs it: `compile_messages`
calls `ghl_api.retrieve_messages(ghl_contact_id, ghl_convo_id)` with no
`limit` argument (functions.py line 104), so the Python default of 10
applies, and only the 10 most recent messages are ever fetched. -/
def compile_messages_fetch (full_conversation : List Msg) (w : String) :
    Option (List ChatMsg) :=
  compile_messages (retrieve_messages_limited full_conversation defaultMessageLimit) w

theorem mem_beforeWatermark {m : Msg} {w : String} :
    ∀ {ms : List Msg}, m ∈ beforeWatermark ms w → m ∈ ms := by
  intro ms
  induction ms with
  | nil => intro h; simpa [beforeWatermark] using h
  | cons a t ih =>
    intro h
    rw [beforeWatermark, List.takeWhile_cons] at h
    split at h
    · rcases List.mem_cons.mp h with rfl | hm
      · exact List.mem_cons_self _ _
      · exact List.mem_cons_of_mem _ (ih hm)
    · simp at h

/-- C10. Retrieval window: history compilation only ever examines the 10
most recent messages of the conversation — every compiled message comes
from that window — and when the watermark id does not occur among the 10
most recent messages, compilation fails (returns `none`) even if the
watermark exists deeper in the conversation. -/
theorem compile_messages_window (full : List Msg) (w : String) :
    (∀ res, compile_messages_fetch full w = some res →
      ∀ c ∈ res, ∃ m ∈ full.take defaultMessageLimit,
        m.direction = "inbound" ∧ c = { role := "user", content := m.body })
    ∧ ((∀ m ∈ full.take defaultMessageLimit, m.id ≠ w) →
        compile_messages_fetch full w = none) := by
  constructor
  · intro res hres c hc
    rw [compile_messages_fetch, retrieve_messages_limited, compile_messages_eq] at hres
    by_cases hcond : watermarkFound (full.take defaultMessageLimit) w = true
        ∧ inboundBefore (full.take defaultMessageLimit) w ≠ []
    · rw [if_pos hcond] at hres
      have hr : res = (inboundBefore (full.take defaultMessageLimit) w).reverse :=
        ((Option.some.injEq _ _).mp hres).symm
      subst hr
      obtain ⟨m, hmf, hmc⟩ := List.mem_map.mp (List.mem_reverse.mp hc)
      obtain ⟨hmb, hdir⟩ := List.mem_filter.mp hmf
      exact ⟨m, mem_beforeWatermark hmb, by simpa using hdir, hmc.symm⟩
    · rw [if_neg hcond] at hres
      exact Option.noConfusion hres
  · intro hall
    rw [compile_messages_fetch, retrieve_messages_limited, compile_messages_eq]
    have hnf : watermarkFound (full.take defaultMessageLimit) w = false := by
      rw [watermarkFound]
      simp only [List.any_eq_false, decide_eq_true_eq]
      exact hall
    rw [if_neg]
    rintro ⟨h1, -⟩
    rw [hnf] at h1
    exact Bool.false_ne_true h1

/-- C10 witness conversation: eleven messages, most-recent first; the
watermark is the eleventh (older than the ten-message window). -/
def fullW : List Msg :=
  [{ id := "m0", direction := "inbound", body := "b0" },
   { id := "m1", direction := "inbound", body := "b1" },
   { id := "m2", direction := "inbound", body := "b2" },
   { id := "m3", direction := "inbound", body := "b3" },
   { id := "m4", direction := "inbound", body := "b4" },
   { id := "m5", direction := "inbound", body := "b5" },
   { id := "m6", direction := "inbound", body := "b6" },
   { id := "m7", direction := "inbound", body := "b7" },
   { id := "m8", direction := "inbound", body := "b8" },
   { id := "m9", direction := "inbound", body := "b9" },
   { id := "w", direction := "outbound", body := "old" }]

/-- Witness for C10 at a concrete input: although the watermark "w" exists
in the full conversation, it is outside the ten-message window, so history
compilation fails. -/
theorem compile_messages_window_witness :
    compile_messages_fetch fullW "w" = none :=
  (compile_messages_window fullW "w").2 (by decide)
